import Mathlib

/-!
Shallow embedding of the radioactive-decay simulation engine
(`src/nuclear.py` and `src/radioactivity.py`) over exact real arithmetic.
Every trace array of the Python code is modelled as a function `ℕ → ℝ`
giving the value at each grid index; the Euler loops become structural
recursions.  `np.linspace(0, total_time, L + 1)` is modelled by its exact
value `t i = i * (total_time / L)`.  The run-time failures the Python
integrators can hit are `ZeroDivisionError`s from plain Python float
division: at `dt = total_time / L` when `L = 0`, and at the decay-constant
divisions `math.log(2) / half_life` when a half-life equals exactly 0 (the
numpy divisions inside the loops never raise, they only emit Inf/NaN with a
warning).  The `Option`-returning wrappers below model exactly those error
paths.
-/

namespace Nuclear

/-- Line 126 of nuclear.py: `tau = half_life / math.log(2)`. -/
noncomputable def tau (half_life : ℝ) : ℝ := half_life / Real.log 2

/-- Line 134 of nuclear.py: `lambda_decay = math.log(2) / half_life`. -/
noncomputable def lambda_decay (half_life : ℝ) : ℝ := Real.log 2 / half_life

/-- Line 127 of nuclear.py: `dt = total_time / L`. -/
noncomputable def dt (total_time : ℝ) (L : ℕ) : ℝ := total_time / L

/-- Line 128 of nuclear.py: `t = np.linspace(0, total_time, L + 1)`,
whose exact value at index `i` is `i * dt`. -/
noncomputable def t (total_time : ℝ) (L : ℕ) (i : ℕ) : ℝ := i * dt total_time L

/-- Lines 129-132 of nuclear.py: `N_numerical[0] = N0` and the Euler loop
`N_numerical[i+1] = N_numerical[i] - (dt * N_numerical[i]) / tau`. -/
noncomputable def N_numerical (N0 half_life total_time : ℝ) (L : ℕ) : ℕ → ℝ
  | 0 => N0
  | i + 1 =>
      N_numerical N0 half_life total_time L i -
        dt total_time L * N_numerical N0 half_life total_time L i / tau half_life

/-- Line 133 of nuclear.py: `N_analytical = N0 * np.exp(-t / tau)`. -/
noncomputable def N_analytical (N0 half_life total_time : ℝ) (L : ℕ) (i : ℕ) : ℝ :=
  N0 * Real.exp (-t total_time L i / tau half_life)

/-- Lines 121-135 of nuclear.py, `simulate_decay(N0, half_life, L, total_time)`,
as a fallible call: the body raises a `ZeroDivisionError` exactly when `L = 0`
(at `dt = total_time / L`, line 127) or when `half_life = 0` (at
`lambda_decay = math.log(2) / half_life`, line 134 — reached only after the
traces were computed, but the call then never returns them), and otherwise
returns `(t, N_numerical, N_analytical, lambda_decay)`.  No other validation
exists: `tau = half_life / math.log(2)` never raises, and the numpy divisions
by `tau` inside the loop only produce Inf/NaN silently. -/
noncomputable def simulate_decay (N0 half_life : ℝ) (L : ℕ) (total_time : ℝ) :
    Option ((ℕ → ℝ) × (ℕ → ℝ) × (ℕ → ℝ) × ℝ) :=
  if L = 0 ∨ half_life = 0 then none
  else some (t total_time L, N_numerical N0 half_life total_time L,
    N_analytical N0 half_life total_time L, lambda_decay half_life)

/-- Line 137 of nuclear.py: `calculate_activity(lambda_decay, N) = lambda_decay * N`
applied pointwise. -/
noncomputable def calculate_activity (lambda_d : ℝ) (N : ℕ → ℝ) (i : ℕ) : ℝ :=
  lambda_d * N i

/-- Lines 196 and 291-292 of nuclear.py:
`np.divide(N_daughter, N_parent, out=np.zeros_like(N_daughter), where=(N_parent != 0))`
builds a fresh array that holds the quotient where the parent entry is nonzero
and keeps the zero of the freshly allocated output elsewhere. -/
noncomputable def ratio_population (N_daughter N_parent : ℕ → ℝ) (i : ℕ) : ℝ :=
  if N_parent i ≠ 0 then N_daughter i / N_parent i else 0

namespace Chain

/-- Line 175 of nuclear.py: `lambda1 = math.log(2) / half_life_parent`. -/
noncomputable def lambda1 (half_life_parent : ℝ) : ℝ := Real.log 2 / half_life_parent

/-- Line 176 of nuclear.py: `lambda2 = math.log(2) / half_life_daughter`. -/
noncomputable def lambda2 (half_life_daughter : ℝ) : ℝ := Real.log 2 / half_life_daughter

/-- Lines 179-183 of nuclear.py: the parent trace of `simulate_decay_chain`,
`N_parent[0] = N0`, `N_parent[i+1] = N_parent[i] - lambda1 * N_parent[i] * dt`. -/
noncomputable def N_parent (N0 half_life_parent total_time : ℝ) (L : ℕ) : ℕ → ℝ
  | 0 => N0
  | i + 1 =>
      N_parent N0 half_life_parent total_time L i -
        lambda1 half_life_parent * N_parent N0 half_life_parent total_time L i *
          dt total_time L

/-- Lines 180-184 of nuclear.py: the daughter trace of `simulate_decay_chain`,
`N_daughter[0] = 0`,
`N_daughter[i+1] = N_daughter[i] + (lambda1 * N_parent[i] - lambda2 * N_daughter[i]) * dt`,
reading the pre-update parent value `N_parent[i]`. -/
noncomputable def N_daughter (N0 half_life_parent half_life_daughter total_time : ℝ)
    (L : ℕ) : ℕ → ℝ
  | 0 => 0
  | i + 1 =>
      N_daughter N0 half_life_parent half_life_daughter total_time L i +
        (lambda1 half_life_parent * N_parent N0 half_life_parent total_time L i -
          lambda2 half_life_daughter *
            N_daughter N0 half_life_parent half_life_daughter total_time L i) *
          dt total_time L

end Chain

namespace ComplexChain

/-- Line 254 of nuclear.py: `lambda_P = math.log(2) / half_life_parent`. -/
noncomputable def lambda_P (half_life_parent : ℝ) : ℝ := Real.log 2 / half_life_parent

/-- Line 255 of nuclear.py: `lambda_A = math.log(2) / half_life_A`. -/
noncomputable def lambda_A (half_life_A : ℝ) : ℝ := Real.log 2 / half_life_A

/-- Line 256 of nuclear.py: `lambda_B = math.log(2) / half_life_B`. -/
noncomputable def lambda_B (half_life_B : ℝ) : ℝ := Real.log 2 / half_life_B

/-- Lines 264-267 of nuclear.py: parent trace of `simulate_complex_decay_chain`,
`dN_parent = -lambda_P * N_parent[i] * dt`, `N_parent[i+1] = N_parent[i] + dN_parent`. -/
noncomputable def N_parent (N0 half_life_parent total_time : ℝ) (L : ℕ) : ℕ → ℝ
  | 0 => N0
  | i + 1 =>
      N_parent N0 half_life_parent total_time L i +
        -lambda_P half_life_parent * N_parent N0 half_life_parent total_time L i *
          dt total_time L

/-- Lines 269-270 of nuclear.py: daughter A trace,
`dN_A = (BR_A * lambda_P * N_parent[i] - lambda_A * N_A[i]) * dt`,
`N_A[i+1] = N_A[i] + dN_A`. -/
noncomputable def N_A (N0 half_life_parent half_life_A BR_A total_time : ℝ)
    (L : ℕ) : ℕ → ℝ
  | 0 => 0
  | i + 1 =>
      N_A N0 half_life_parent half_life_A BR_A total_time L i +
        (BR_A * lambda_P half_life_parent * N_parent N0 half_life_parent total_time L i -
          lambda_A half_life_A * N_A N0 half_life_parent half_life_A BR_A total_time L i) *
          dt total_time L

/-- Lines 272-273 of nuclear.py: daughter B trace,
`dN_B = (BR_B * lambda_P * N_parent[i] - lambda_B * N_B[i]) * dt`,
`N_B[i+1] = N_B[i] + dN_B`. -/
noncomputable def N_B (N0 half_life_parent half_life_B BR_B total_time : ℝ)
    (L : ℕ) : ℕ → ℝ
  | 0 => 0
  | i + 1 =>
      N_B N0 half_life_parent half_life_B BR_B total_time L i +
        (BR_B * lambda_P half_life_parent * N_parent N0 half_life_parent total_time L i -
          lambda_B half_life_B * N_B N0 half_life_parent half_life_B BR_B total_time L i) *
          dt total_time L

end ComplexChain

/-- Lines 248-275 of nuclear.py,
`simulate_complex_decay_chain(N0, half_life_parent, half_life_A, half_life_B, BR_A, BR_B, L, total_time)`,
as a fallible call: the body raises a `ZeroDivisionError` exactly when one of
the half-lives is 0 (at the decay-constant divisions
`math.log(2) / half_life`, lines 254-256, before any trace is allocated) or
when `L = 0` (at `dt = total_time / L`, line 257); no branching-ratio or
sign-of-half-life validation exists. -/
noncomputable def simulate_complex_decay_chain
    (N0 half_life_parent half_life_A half_life_B BR_A BR_B : ℝ) (L : ℕ)
    (total_time : ℝ) :
    Option ((ℕ → ℝ) × (ℕ → ℝ) × (ℕ → ℝ) × (ℕ → ℝ) × ℝ × ℝ × ℝ) :=
  if L = 0 ∨ half_life_parent = 0 ∨ half_life_A = 0 ∨ half_life_B = 0 then none
  else some (t total_time L,
    ComplexChain.N_parent N0 half_life_parent total_time L,
    ComplexChain.N_A N0 half_life_parent half_life_A BR_A total_time L,
    ComplexChain.N_B N0 half_life_parent half_life_B BR_B total_time L,
    ComplexChain.lambda_P half_life_parent, ComplexChain.lambda_A half_life_A,
    ComplexChain.lambda_B half_life_B)

end Nuclear

namespace Radioactivity

/-- Line 51 of radioactivity.py: `dt = int(dt1) / L`. -/
noncomputable def dt (total_time : ℝ) (L : ℕ) : ℝ := total_time / L

/-- Lines 53-58 of radioactivity.py: `t = [0]*(L+1)`, `t[0] = 0.0`, then the loop
`for i in range(L): t[i+1] = i * dt` — note the assigned value is `i * dt`, not
`(i+1) * dt`. -/
noncomputable def t (total_time : ℝ) (L : ℕ) : ℕ → ℝ
  | 0 => 0
  | i + 1 => i * dt total_time L

/-- Lines 52-57 of radioactivity.py: `N[0] = N0` and the Euler loop
`N[i+1] = N[i] - (dt * N[i]) / tau` with `tau = t_halflife / math.log(2)`. -/
noncomputable def N (N0 t_halflife total_time : ℝ) (L : ℕ) : ℕ → ℝ
  | 0 => N0
  | i + 1 =>
      N N0 t_halflife total_time L i -
        dt total_time L * N N0 t_halflife total_time L i / (t_halflife / Real.log 2)

end Radioactivity

open Nuclear

/-- Helper: the update written in nuclear.py as `(dt * N) / tau` coincides over
exact real arithmetic with the textbook form `lambda * N * dt`, because
`tau = half_life / log 2` and `lambda = log 2 / half_life`. -/
theorem div_tau_eq_lambda_mul (half_life x d : ℝ) :
    d * x / tau half_life = lambda_decay half_life * x * d := by
  rw [tau, lambda_decay, div_div_eq_mul_div]
  ring

/-- C1: for every N0 >= 0, halfLife > 0, stepCount L >= 1 and totalTime > 0,
the single-species integrator returns a numerical trace with N[0] = N0 and
N[i+1] = N[i] - lambda * N[i] * dt for every i < L, and an analytical trace
N_exact[i] = N0 * exp(-t[i]/tau) on the whole grid, a formula in N0 and the
grid alone, not in the numerical trace. -/
theorem c1_single_decay_traces (N0 half_life total_time : ℝ) (L : ℕ)
    (hN0 : 0 ≤ N0) (hh : 0 < half_life) (hL : 1 ≤ L) (hT : 0 < total_time) :
    N_numerical N0 half_life total_time L 0 = N0 ∧
    (∀ i < L, N_numerical N0 half_life total_time L (i + 1) =
        N_numerical N0 half_life total_time L i -
          lambda_decay half_life * N_numerical N0 half_life total_time L i *
            dt total_time L) ∧
    (∀ i ≤ L, N_analytical N0 half_life total_time L i =
        N0 * Real.exp (-t total_time L i / tau half_life)) := by
  refine ⟨rfl, fun i _ => ?_, fun i _ => rfl⟩
  simp only [N_numerical]
  rw [div_tau_eq_lambda_mul]

/-- Witness for C1 at N0 = 1, halfLife = 1, stepCount = 1, totalTime = 1. -/
theorem c1_single_decay_traces_witness :
    N_numerical 1 1 1 1 0 = 1 ∧
    (∀ i < 1, N_numerical 1 1 1 1 (i + 1) =
        N_numerical 1 1 1 1 i -
          lambda_decay 1 * N_numerical 1 1 1 1 i * dt 1 1) ∧
    (∀ i ≤ 1, N_analytical 1 1 1 1 i = 1 * Real.exp (-t 1 1 i / tau 1)) :=
  c1_single_decay_traces 1 1 1 1 (by norm_num) (by norm_num) (le_refl 1) (by norm_num)

/-- C9: for every halfLife > 0 the engine's constants are
lambda = log 2 / halfLife and tau = halfLife / log 2, and lambda * tau = 1. -/
theorem c9_decay_constants (half_life : ℝ) (hh : 0 < half_life) :
    lambda_decay half_life = Real.log 2 / half_life ∧
    tau half_life = half_life / Real.log 2 ∧
    lambda_decay half_life * tau half_life = 1 := by
  refine ⟨rfl, rfl, ?_⟩
  have h2 : Real.log 2 ≠ 0 := ne_of_gt (Real.log_pos one_lt_two)
  have hh0 : half_life ≠ 0 := ne_of_gt hh
  rw [lambda_decay, tau]
  field_simp

/-- Witness for C9 at halfLife = 1. -/
theorem c9_decay_constants_witness :
    lambda_decay 1 = Real.log 2 / 1 ∧
    tau 1 = 1 / Real.log 2 ∧
    lambda_decay 1 * tau 1 = 1 :=
  c9_decay_constants 1 (by norm_num)

/-- C5: the two-species chain integrator starts the parent at N0 and the
daughter at 0, and advances them by the explicit coupled Euler step
N_P[i+1] = N_P[i] - lambda_P * N_P[i] * dt and
N_D[i+1] = N_D[i] + (lambda_P * N_P[i] - lambda_D * N_D[i]) * dt,
the production term reading the pre-update parent value N_P[i]. -/
theorem c5_chain_euler_step
    (N0 half_life_parent half_life_daughter total_time : ℝ) (L : ℕ)
    (hN0 : 0 ≤ N0) (hP : 0 < half_life_parent) (hD : 0 < half_life_daughter)
    (hL : 1 ≤ L) (hT : 0 < total_time) :
    Chain.N_parent N0 half_life_parent total_time L 0 = N0 ∧
    Chain.N_daughter N0 half_life_parent half_life_daughter total_time L 0 = 0 ∧
    (∀ i < L,
      Chain.N_parent N0 half_life_parent total_time L (i + 1) =
        Chain.N_parent N0 half_life_parent total_time L i -
          Chain.lambda1 half_life_parent *
            Chain.N_parent N0 half_life_parent total_time L i * dt total_time L ∧
      Chain.N_daughter N0 half_life_parent half_life_daughter total_time L (i + 1) =
        Chain.N_daughter N0 half_life_parent half_life_daughter total_time L i +
          (Chain.lambda1 half_life_parent *
            Chain.N_parent N0 half_life_parent total_time L i -
            Chain.lambda2 half_life_daughter *
              Chain.N_daughter N0 half_life_parent half_life_daughter total_time L i) *
            dt total_time L) :=
  ⟨rfl, rfl, fun _ _ => ⟨rfl, rfl⟩⟩

/-- Witness for C5 at N0 = 1, both half-lives 1, stepCount = 1, totalTime = 1. -/
theorem c5_chain_euler_step_witness :
    Chain.N_parent 1 1 1 1 0 = 1 ∧
    Chain.N_daughter 1 1 1 1 1 0 = 0 ∧
    (∀ i < 1,
      Chain.N_parent 1 1 1 1 (i + 1) =
        Chain.N_parent 1 1 1 1 i -
          Chain.lambda1 1 * Chain.N_parent 1 1 1 1 i * dt 1 1 ∧
      Chain.N_daughter 1 1 1 1 1 (i + 1) =
        Chain.N_daughter 1 1 1 1 1 i +
          (Chain.lambda1 1 * Chain.N_parent 1 1 1 1 i -
            Chain.lambda2 1 * Chain.N_daughter 1 1 1 1 1 i) * dt 1 1) :=
  c5_chain_euler_step 1 1 1 1 1 (by norm_num) (by norm_num) (by norm_num)
    (le_refl 1) (by norm_num)

/-- C10: for valid parameters the parent trace of the two-species chain
integrator is pointwise equal, over exact real arithmetic, to the numerical
trace of the single-species integrator with the same N0, half-life and grid:
the updates N - lambda1 * N * dt and N - (dt * N) / tau coincide because
tau = half_life / log 2 is the reciprocal of lambda1 = log 2 / half_life. -/
theorem c10_chain_parent_refines_single (N0 H Hd T : ℝ) (L : ℕ)
    (hH : 0 < H) (hHd : 0 < Hd) (hL : 1 ≤ L) (hT : 0 < T) :
    ∀ i, Chain.N_parent N0 H T L i = N_numerical N0 H T L i := by
  intro i
  induction i with
  | zero => rfl
  | succ n ih =>
      simp only [Chain.N_parent, N_numerical, ih, div_tau_eq_lambda_mul, Chain.lambda1,
        lambda_decay]

/-- Witness for C10 at N0 = 1, H = 1, Hd = 1, stepCount = 1, totalTime = 1,
evaluated at grid index 2. -/
theorem c10_chain_parent_refines_single_witness :
    Chain.N_parent 1 1 1 1 2 = N_numerical 1 1 1 1 2 :=
  c10_chain_parent_refines_single 1 1 1 1 1 (by norm_num) (by norm_num)
    (le_refl 1) (by norm_num) 2

/-- C8: for the single-species integrator with N0 > 0, stepCount = 1 and an
oversized step lambda * dt > 1, the numerical trace goes negative at index 1,
and the call still returns the trace as-is, neither clamped nor replaced by
an error. -/
theorem c8_euler_negative (N0 half_life total_time : ℝ)
    (hN0 : 0 < N0) (hh : 0 < half_life)
    (hstep : 1 < lambda_decay half_life * dt total_time 1) :
    N_numerical N0 half_life total_time 1 1 < 0 ∧
    simulate_decay N0 half_life 1 total_time =
      some (t total_time 1, N_numerical N0 half_life total_time 1,
        N_analytical N0 half_life total_time 1, lambda_decay half_life) := by
  refine ⟨?_, by simp [simulate_decay, hh.ne']⟩
  have key : N_numerical N0 half_life total_time 1 1 =
      N0 * (1 - lambda_decay half_life * dt total_time 1) := by
    show N_numerical N0 half_life total_time 1 (0 + 1) = _
    simp only [N_numerical, div_tau_eq_lambda_mul]
    ring
  rw [key]
  have hneg : 1 - lambda_decay half_life * dt total_time 1 < 0 := by linarith
  exact mul_neg_of_pos_of_neg hN0 hneg

/-- Witness for C8 at N0 = 1, halfLife = 1, totalTime = 2, where
lambda * dt = 2 * log 2 > 1. -/
theorem c8_euler_negative_witness :
    N_numerical 1 1 2 1 1 < 0 ∧
    simulate_decay 1 1 1 2 =
      some (t 2 1, N_numerical 1 1 2 1, N_analytical 1 1 2 1, lambda_decay 1) := by
  refine c8_euler_negative 1 1 2 (by norm_num) (by norm_num) ?_
  have h := Real.log_two_gt_d9
  simp only [lambda_decay, dt, Nat.cast_one, div_one]
  linarith

/-- C4: in the three-species branching integrator, whenever BR_A + BR_B = 1,
the sum of the two production terms BR_A * lambda_P * N_P[i] * dt and
BR_B * lambda_P * N_P[i] * dt equals exactly the parent's mass loss
N_P[i] - N_P[i+1], which in turn equals lambda_P * N_P[i] * dt, at every
step i < L. -/
theorem c4_branching_mass_balance
    (N0 half_life_parent half_life_A half_life_B BR_A BR_B total_time : ℝ)
    (L : ℕ) (hBR : BR_A + BR_B = 1) (hN0 : 0 ≤ N0) (hP : 0 < half_life_parent)
    (hA : 0 < half_life_A) (hB : 0 < half_life_B) (hL : 1 ≤ L)
    (hT : 0 < total_time) :
    ∀ i < L,
      BR_A * ComplexChain.lambda_P half_life_parent *
          ComplexChain.N_parent N0 half_life_parent total_time L i *
          dt total_time L +
        BR_B * ComplexChain.lambda_P half_life_parent *
          ComplexChain.N_parent N0 half_life_parent total_time L i *
          dt total_time L =
      ComplexChain.N_parent N0 half_life_parent total_time L i -
        ComplexChain.N_parent N0 half_life_parent total_time L (i + 1) ∧
      ComplexChain.N_parent N0 half_life_parent total_time L i -
        ComplexChain.N_parent N0 half_life_parent total_time L (i + 1) =
      ComplexChain.lambda_P half_life_parent *
        ComplexChain.N_parent N0 half_life_parent total_time L i *
        dt total_time L := by
  intro i _
  constructor
  · simp only [ComplexChain.N_parent]
    linear_combination (ComplexChain.lambda_P half_life_parent *
      ComplexChain.N_parent N0 half_life_parent total_time L i *
      dt total_time L) * hBR
  · simp only [ComplexChain.N_parent]
    ring

/-- Witness for C4 at N0 = 1, all half-lives 1, BR_A = 0.3, BR_B = 0.7,
stepCount = 1, totalTime = 1. -/
theorem c4_branching_mass_balance_witness :
    (0.3 : ℝ) * ComplexChain.lambda_P 1 * ComplexChain.N_parent 1 1 1 1 0 *
        dt 1 1 +
      0.7 * ComplexChain.lambda_P 1 * ComplexChain.N_parent 1 1 1 1 0 *
        dt 1 1 =
    ComplexChain.N_parent 1 1 1 1 0 - ComplexChain.N_parent 1 1 1 1 (0 + 1) ∧
    ComplexChain.N_parent 1 1 1 1 0 - ComplexChain.N_parent 1 1 1 1 (0 + 1) =
    ComplexChain.lambda_P 1 * ComplexChain.N_parent 1 1 1 1 0 * dt 1 1 :=
  c4_branching_mass_balance 1 1 1 1 0.3 0.7 1 1 (by norm_num) (by norm_num)
    (by norm_num) (by norm_num) (by norm_num) (le_refl 1) (by norm_num) 0
    (by norm_num)

/-- Counterexample for C3: with N0 = 1, both half-lives 1, stepCount = 1 and
totalTime = 1, at step i = 0 the parent loses log 2 while the claimed
right-hand side (N_D[0] - N_D[1]) + lambda_D * N_D[0] * dt evaluates to
-log 2, so the identity as stated fails; the daughter difference in the claim
has the wrong orientation. -/
theorem c3_mass_identity_counterexample :
    ¬ (Chain.N_parent 1 1 1 1 0 - Chain.N_parent 1 1 1 1 1 =
        (Chain.N_daughter 1 1 1 1 1 0 - Chain.N_daughter 1 1 1 1 1 1) +
          Chain.lambda2 1 * Chain.N_daughter 1 1 1 1 1 0 * dt 1 1) := by
  have hlog : 0 < Real.log 2 := Real.log_pos one_lt_two
  have hP1 : Chain.N_parent 1 1 1 1 1 = 1 - Real.log 2 := by
    show Chain.N_parent 1 1 1 1 (0 + 1) = _
    simp [Chain.N_parent, Chain.lambda1, dt]
  have hD1 : Chain.N_daughter 1 1 1 1 1 1 = Real.log 2 := by
    show Chain.N_daughter 1 1 1 1 1 (0 + 1) = _
    simp [Chain.N_daughter, Chain.N_parent, Chain.lambda1, Chain.lambda2, dt]
  intro h
  rw [hP1, hD1] at h
  simp only [Chain.N_parent, Chain.N_daughter] at h
  nlinarith [h, hlog]

/-- C3 amended: in the two-species chain integrator, the parent's mass loss at
each step equals the daughter's mass GAIN plus the daughter's own decay term,
N_P[i] - N_P[i+1] = (N_D[i+1] - N_D[i]) + lambda_D * N_D[i] * dt, for all
valid inputs and every step i < L (the claim as frozen writes the daughter
difference as N_D[i] - N_D[i+1], which has the opposite sign). -/
theorem c3_mass_identity
    (N0 half_life_parent half_life_daughter total_time : ℝ) (L : ℕ)
    (hN0 : 0 ≤ N0) (hP : 0 < half_life_parent) (hD : 0 < half_life_daughter)
    (hL : 1 ≤ L) (hT : 0 < total_time) :
    ∀ i < L,
      Chain.N_parent N0 half_life_parent total_time L i -
        Chain.N_parent N0 half_life_parent total_time L (i + 1) =
      (Chain.N_daughter N0 half_life_parent half_life_daughter total_time L (i + 1) -
        Chain.N_daughter N0 half_life_parent half_life_daughter total_time L i) +
        Chain.lambda2 half_life_daughter *
          Chain.N_daughter N0 half_life_parent half_life_daughter total_time L i *
          dt total_time L := by
  intro i _
  simp only [Chain.N_parent, Chain.N_daughter]
  ring

/-- Witness for the amended C3 at N0 = 1, both half-lives 1, stepCount = 1,
totalTime = 1, step i = 0. -/
theorem c3_mass_identity_witness :
    Chain.N_parent 1 1 1 1 0 - Chain.N_parent 1 1 1 1 (0 + 1) =
      (Chain.N_daughter 1 1 1 1 1 (0 + 1) - Chain.N_daughter 1 1 1 1 1 0) +
        Chain.lambda2 1 * Chain.N_daughter 1 1 1 1 1 0 * dt 1 1 :=
  c3_mass_identity 1 1 1 1 1 (by norm_num) (by norm_num) (by norm_num)
    (le_refl 1) (by norm_num) 0 (by norm_num)

/-- C7: the ratio evaluator yields 0 at indices where the parent trace is 0
and the pointwise quotient elsewhere; the evaluator is a pure function of the
two input traces and mutates neither. -/
theorem c7_ratio_spec (Nd Np : ℕ → ℝ) (i : ℕ) :
    (Np i = 0 → ratio_population Nd Np i = 0) ∧
    (Np i ≠ 0 → ratio_population Nd Np i = Nd i / Np i) := by
  constructor
  · intro h
    simp [ratio_population, h]
  · intro h
    simp [ratio_population, h]

/-- Witness for C7 on a trace with a forced zero parent value at index 0 and a
nonzero parent value 2 at index 1, with constant daughter value 6. -/
theorem c7_ratio_spec_witness :
    ratio_population (fun _ => 6) (fun j => if j = 0 then 0 else 2) 0 = 0 ∧
    ratio_population (fun _ => 6) (fun j => if j = 0 then 0 else 2) 1 =
      6 / 2 := by
  constructor
  · exact (c7_ratio_spec (fun _ => 6) (fun j => if j = 0 then 0 else 2) 0).1
      (by norm_num)
  · have h := (c7_ratio_spec (fun _ => 6) (fun j => if j = 0 then 0 else 2) 1).2
      (by norm_num)
    simpa using h

/-- Counterexample for C2: calling the single-species integrator with the
invalid half-life -1 (a non-positive physical parameter) does not fail at
all — no DomainError exists anywhere in nuclear.py — and the call returns a
trace. -/
theorem c2_no_domain_error_counterexample :
    (-1 : ℝ) < 0 ∧ (simulate_decay 1 (-1) 1 1).isSome = true := by
  refine ⟨by norm_num, ?_⟩
  norm_num [simulate_decay]

/-- C2 amended: the engine integrators perform no eager parameter validation
and raise no DomainError: for any nonzero half-lives (including negative
ones) and any branching ratios (including ones outside [0,1]) they return a
trace whenever stepCount is nonzero, and the only failures are
ZeroDivisionErrors — at dt = totalTime / stepCount when stepCount = 0, and
at the plain-Python decay-constant division log(2) / halfLife when a
half-life equals exactly 0 (in simulate_decay that division at line 134 runs
only after the traces were already computed). -/
theorem c2_no_eager_validation
    (N0 half_life half_life_A half_life_B BR_A BR_B total_time : ℝ) (L : ℕ)
    (hL : L ≠ 0) (hh : half_life ≠ 0) (hhA : half_life_A ≠ 0)
    (hhB : half_life_B ≠ 0) :
    (simulate_decay N0 half_life L total_time).isSome = true ∧
    (simulate_complex_decay_chain N0 half_life half_life_A half_life_B BR_A
        BR_B L total_time).isSome = true ∧
    simulate_decay N0 half_life 0 total_time = none ∧
    simulate_decay N0 0 L total_time = none ∧
    simulate_complex_decay_chain N0 half_life half_life_A half_life_B BR_A
        BR_B 0 total_time = none ∧
    simulate_complex_decay_chain N0 0 half_life_A half_life_B BR_A
        BR_B L total_time = none := by
  refine ⟨?_, ?_, ?_, ?_, ?_, ?_⟩ <;>
    simp [simulate_decay, simulate_complex_decay_chain, hL, hh, hhA, hhB]

/-- Witness for the amended C2 with invalid parameters: half-lives -1 and
branching ratio 2 outside [0,1], stepCount = 1. -/
theorem c2_no_eager_validation_witness :
    (simulate_decay 1 (-1) 1 1).isSome = true ∧
    (simulate_complex_decay_chain 1 (-1) (-1) (-1) 2 (-1) 1 1).isSome = true ∧
    simulate_decay 1 (-1) 0 1 = none ∧
    simulate_decay 1 0 1 1 = none ∧
    simulate_complex_decay_chain 1 (-1) (-1) (-1) 2 (-1) 0 1 = none ∧
    simulate_complex_decay_chain 1 0 (-1) (-1) 2 (-1) 1 1 = none :=
  c2_no_eager_validation 1 (-1) (-1) (-1) 2 (-1) 1 1 one_ne_zero
    (by norm_num) (by norm_num) (by norm_num)

/-- C6 failing input for radioactivity.py: with stepCount = 1 and
totalTime = 5, the module-level loop fills t[1] with 0 * dt = 0 instead of
the claimed 1 * dt = 5 (the loop writes t[i+1] = i * dt); nuclear.py's
linspace axis does satisfy t[1] = 5 on the same grid. -/
theorem c6_time_axis_divergence :
    Radioactivity.t 5 1 1 = 0 ∧ Nuclear.t 5 1 1 = 5 ∧ (0 : ℝ) ≠ 5 := by
  refine ⟨?_, ?_, by norm_num⟩
  · show Radioactivity.t 5 1 (0 + 1) = 0
    simp [Radioactivity.t, Radioactivity.dt]
  · simp [Nuclear.t, Nuclear.dt]
